import Mathlib

/-!
Shallow embedding of the value bridge of `es_runtime`:
`src/utils.rs` (AutoIdMap), `src/esvaluefacade.rs` (EsValueFacade, the
thread-local promise-resolution transmitter table, and the conversions
between facades and native SpiderMonkey values).

Modelling conventions:
* Rust `usize` / `i32` become `Nat` / `Int` (no claim exercises overflow).
* A Rust panic is modelled as `Except.error msg` (when the message matters)
  or as `Option`'s `none` (when it does not); `get` on `AutoIdMap` returns a
  genuine Rust `Option`, which is kept as a Lean `Option` value.
* `f64` payloads are never inspected, computed with, or compared by the
  program; they are stored, moved and handed to the host formatter.  They
  are modelled as opaque 64-bit patterns (`Nat`), and the host's `Display`
  formatter for `f64` as `toString` of the pattern.
* The thread-local `PROMISE_RESOLUTION_TRANSMITTERS` map together with the
  states of the allocated one-shot mpsc channels is made an explicit
  `Bridge` state threaded through the functions that touch it.
* `HashMap<String, _>` object maps are modelled as key/value sequences
  (`EsObjEntries`); the source's iteration order over a `HashMap` is
  unspecified, here it is the sequence order.
-/

/-- Opaque bit pattern of a Rust `f64`; the program only stores and moves
these payloads. -/
abbrev F64 := Nat

/-- Model of the host standard library formatter used by
`format!("\x7b\x7d", f64value)`; the program treats it as a black box
producing the numeric literal. -/
def fmtF64 (x : F64) : String := toString x

/-! ## AutoIdMap (src/utils.rs) -/

/-- Model of `AutoIdMap<T>`: `last_id: usize` plus a `HashMap<usize, T>`
modelled as a partial function. -/
structure AutoIdMap (T : Type) where
  last_id : Nat
  map : Nat → Option T

namespace AutoIdMap

/-- Model of `AutoIdMap::new`: `last_id = 0`, empty map. -/
def new {T : Type} : AutoIdMap T :=
  { last_id := 0, map := fun _ => none }

/-- Model of `AutoIdMap::insert`: increment `last_id`, store the element
under the new id, return the new id. -/
def insert {T : Type} (m : AutoIdMap T) (elem : T) : AutoIdMap T × Nat :=
  let id := m.last_id + 1
  ({ last_id := id, map := fun k => if k = id then some elem else m.map k }, id)

/-- Model of `AutoIdMap::contains_key`. -/
def contains_key {T : Type} (m : AutoIdMap T) (id : Nat) : Bool :=
  (m.map id).isSome

/-- Model of `AutoIdMap::replace`: panics (here `Except.error` with the
panic message) when the id is not present, otherwise overwrites. -/
def replace {T : Type} (m : AutoIdMap T) (id : Nat) (elem : T) :
    Except String (AutoIdMap T) :=
  if m.contains_key id = false then
    Except.error ("no entry to replace for " ++ toString id)
  else
    Except.ok { last_id := m.last_id,
                map := fun k => if k = id then some elem else m.map k }

/-- Model of `AutoIdMap::get`: returns the Rust `Option<&T>` as is. -/
def get {T : Type} (m : AutoIdMap T) (id : Nat) : Option T :=
  m.map id

/-- Model of `AutoIdMap::remove`: `expect("no such elem")` is a panic
(`Except.error`) when the id is absent; otherwise the entry is deleted and
the value returned. -/
def remove {T : Type} (m : AutoIdMap T) (id : Nat) :
    Except String (AutoIdMap T × T) :=
  match m.map id with
  | some v =>
      Except.ok ({ last_id := m.last_id,
                   map := fun k => if k = id then none else m.map k }, v)
  | none => Except.error "no such elem"

/-- Client operations on one `AutoIdMap` instance, for stating trace
properties over interleaved call sequences. -/
inductive Op (T : Type) where
  | insert (elem : T)
  | remove (id : Nat)
  | replace (id : Nat) (elem : T)
  | get (id : Nat)

/-- Observable events of a run: which ids the calls touched or returned. -/
inductive Ev where
  | inserted (id : Nat)
  | removed (id : Nat)
  | replaced (id : Nat)
  | got (id : Nat) (found : Bool)
deriving DecidableEq

/-- One client call against the registry; `Except.error` is a panic of the
callee. -/
def step {T : Type} (m : AutoIdMap T) : Op T → Except String (AutoIdMap T × Ev)
  | Op.insert e =>
      let p := m.insert e
      Except.ok (p.1, Ev.inserted p.2)
  | Op.remove id =>
      match m.remove id with
      | Except.ok p => Except.ok (p.1, Ev.removed id)
      | Except.error msg => Except.error msg
  | Op.replace id e =>
      match m.replace id e with
      | Except.ok m1 => Except.ok (m1, Ev.replaced id)
      | Except.error msg => Except.error msg
  | Op.get id => Except.ok (m, Ev.got id (m.get id).isSome)

/-- Run of a sequence of client calls, collecting the event trace. -/
def run {T : Type} (m : AutoIdMap T) : List (Op T) → Except String (AutoIdMap T × List Ev)
  | [] => Except.ok (m, [])
  | op :: ops =>
      match m.step op with
      | Except.error msg => Except.error msg
      | Except.ok (m1, ev) =>
          match m1.run ops with
          | Except.error msg => Except.error msg
          | Except.ok (m2, evs) => Except.ok (m2, ev :: evs)

/-- Event trace of a run from a fresh registry. -/
def runEvents {T : Type} (ops : List (Op T)) : Except String (List Ev) :=
  (run (new : AutoIdMap T) ops).map (fun p => p.2)

/-- Registry invariant: every key present in the map is nonzero and at most
`last_id`. -/
def inv {T : Type} (m : AutoIdMap T) : Prop :=
  ∀ k, (m.map k).isSome = true → 0 < k ∧ k ≤ m.last_id

end AutoIdMap

/-- Ordering constraints the spec imposes between two trace events: a later
insert returns an id strictly above every earlier inserted id and above
every earlier removed id (so a removed id is never handed out again). -/
def evRel : AutoIdMap.Ev → AutoIdMap.Ev → Prop
  | AutoIdMap.Ev.inserted a, AutoIdMap.Ev.inserted b => a < b
  | AutoIdMap.Ev.removed r, AutoIdMap.Ev.inserted b => r < b
  | _, _ => True

/-! ## EsValueFacade data model (src/esvaluefacade.rs) -/

/-- Model of `RustManagedEsVar`: the future id plus the receiving half of
the one-shot channel, identified by its channel number in the `Bridge`
state (`None` models a dropped/absent receiver). -/
structure RustManagedEsVar where
  obj_id : Int
  opt_receiver : Option Nat
deriving DecidableEq

mutual

/-- Model of the `EsValueFacade` struct: six optional fields, one per
possible payload, in the source's field order. -/
inductive EsValueFacade where
  | mk (val_string : Option String) (val_i32 : Option Int) (val_f64 : Option F64)
       (val_boolean : Option Bool) (val_managed_var : Option RustManagedEsVar)
       (val_object : Option EsObjEntries) : EsValueFacade

/-- Model of `HashMap<String, EsValueFacade>` as a key/value sequence. -/
inductive EsObjEntries where
  | nil : EsObjEntries
  | cons (key : String) (value : EsValueFacade) (rest : EsObjEntries) : EsObjEntries

end

/-- Key/value sequence of an object map as a plain list. -/
def EsObjEntries.toList : EsObjEntries → List (String × EsValueFacade)
  | EsObjEntries.nil => []
  | EsObjEntries.cons k v rest => (k, v) :: rest.toList

namespace EsValueFacade

/-- Field accessor `val_string`. -/
def val_string : EsValueFacade → Option String
  | EsValueFacade.mk s _ _ _ _ _ => s

/-- Field accessor `val_i32`. -/
def val_i32 : EsValueFacade → Option Int
  | EsValueFacade.mk _ i _ _ _ _ => i

/-- Field accessor `val_f64`. -/
def val_f64 : EsValueFacade → Option F64
  | EsValueFacade.mk _ _ d _ _ _ => d

/-- Field accessor `val_boolean`. -/
def val_boolean : EsValueFacade → Option Bool
  | EsValueFacade.mk _ _ _ b _ _ => b

/-- Field accessor `val_managed_var`. -/
def val_managed_var : EsValueFacade → Option RustManagedEsVar
  | EsValueFacade.mk _ _ _ _ m _ => m

/-- Field accessor `val_object`. -/
def val_object : EsValueFacade → Option EsObjEntries
  | EsValueFacade.mk _ _ _ _ _ o => o

/-- Model of `EsValueFacade::undefined`. -/
def undefined : EsValueFacade :=
  EsValueFacade.mk none none none none none none

/-- Model of `EsValueFacade::new_f64`. -/
def new_f64 (num : F64) : EsValueFacade :=
  EsValueFacade.mk none none (some num) none none none

/-- Model of `EsValueFacade::new_obj`. -/
def new_obj (props : EsObjEntries) : EsValueFacade :=
  EsValueFacade.mk none none none none none (some props)

/-- Model of `EsValueFacade::new_i32`. -/
def new_i32 (num : Int) : EsValueFacade :=
  EsValueFacade.mk none (some num) none none none none

/-- Model of `EsValueFacade::new_str`. -/
def new_str (s : String) : EsValueFacade :=
  EsValueFacade.mk (some s) none none none none none

/-- Model of `EsValueFacade::new_bool`. -/
def new_bool (b : Bool) : EsValueFacade :=
  EsValueFacade.mk none none none (some b) none none

/-- Model of `EsValueFacade::is_string`. -/
def is_string (f : EsValueFacade) : Bool := f.val_string.isSome

/-- Model of `EsValueFacade::is_i32`. -/
def is_i32 (f : EsValueFacade) : Bool := f.val_i32.isSome

/-- Model of `EsValueFacade::is_f64`. -/
def is_f64 (f : EsValueFacade) : Bool := f.val_f64.isSome

/-- Model of `EsValueFacade::is_boolean`. -/
def is_boolean (f : EsValueFacade) : Bool := f.val_boolean.isSome

/-- Model of `EsValueFacade::is_managed_object`. -/
def is_managed_object (f : EsValueFacade) : Bool := f.val_managed_var.isSome

/-- Model of `EsValueFacade::is_object`. -/
def is_object (f : EsValueFacade) : Bool := f.val_object.isSome

/-- Model of `EsValueFacade::is_promise` (delegates to
`is_managed_object`). -/
def is_promise (f : EsValueFacade) : Bool := f.is_managed_object

/-- Model of `EsValueFacade::get_managed_object_id`; the
`expect("not a managed var")` panic is the `none` case. -/
def get_managed_object_id (f : EsValueFacade) : Option Int :=
  f.val_managed_var.map RustManagedEsVar.obj_id

/-- Model of `EsValueFacade::get_object`; the `unwrap` panic is the `none`
case. -/
def get_object (f : EsValueFacade) : Option EsObjEntries :=
  f.val_object

/-- Number of the six variant predicates that answer `true` on a facade. -/
def activeCount (f : EsValueFacade) : Nat :=
  (if f.is_string then 1 else 0) + (if f.is_i32 then 1 else 0) +
  (if f.is_f64 then 1 else 0) + (if f.is_boolean then 1 else 0) +
  (if f.is_object then 1 else 0) + (if f.is_managed_object then 1 else 0)

end EsValueFacade

/-! ## Native value model and the promise bridge state -/

mutual

/-- Model of a native SpiderMonkey `mozjs::jsapi::Value`, one constructor
per tag the source distinguishes; `undefinedV` is the undefined value and
`other` stands for every remaining tag (null, symbol, ...), neither of
which matches any of the five inspected kind predicates. -/
inductive JSVal where
  | boolean (b : Bool) : JSVal
  | int32 (n : Int) : JSVal
  | double (x : F64) : JSVal
  | string (s : String) : JSVal
  | object (props : JSProps) : JSVal
  | undefinedV : JSVal
  | other : JSVal

/-- Own properties of a native object: name/value sequence with unique
names (JS own property names are unique). -/
inductive JSProps where
  | nil : JSProps
  | cons (name : String) (value : JSVal) (rest : JSProps) : JSProps

end

/-- Model of `es_utils::get_js_obj_prop_names`: the own property names. -/
def JSProps.names : JSProps → List String
  | JSProps.nil => []
  | JSProps.cons n _ rest => n :: rest.names

/-- Model of `es_utils::get_es_obj_prop_val`: property lookup; a missing
property reads as the undefined value. -/
def JSProps.lookup : JSProps → String → JSVal
  | JSProps.nil, _ => JSVal.undefinedV
  | JSProps.cons n v rest, name => if n = name then v else rest.lookup name

/-- Model of `mozjs` `Value::to_int32`: reads the int32 payload.  On a
value of any other tag the source reads unchecked payload bits; that case
is modelled as 0 (the program only applies it to the reserved marker
property, which scripts set to an int32 future id). -/
def JSVal.to_int32 : JSVal → Int
  | JSVal.int32 n => n
  | _ => 0

/-- The `Result<EsValueFacade, EsValueFacade>` carried by the one-shot
promise-resolution channels. -/
inductive RRes where
  | ok (v : EsValueFacade)
  | err (v : EsValueFacade)

/-- State of one allocated one-shot mpsc channel: nothing sent yet, a
result sent and not yet received, or the result already received. -/
inductive ChanState where
  | pending
  | sent (r : RRes)
  | drained

/-- Per-worker-thread bridge state: the thread-local
`PROMISE_RESOLUTION_TRANSMITTERS` map from future id to the sending half
of its channel (identified by channel number), plus the next fresh channel
number and every channel's state. -/
structure Bridge where
  transmitters : Int → Option Nat
  nextChan : Nat
  chan : Nat → ChanState

/-- Fresh bridge state: no transmitter registered, no channel allocated. -/
def bridge0 : Bridge :=
  { transmitters := fun _ => none, nextChan := 0, chan := fun _ => ChanState.pending }

namespace EsValueFacade

/-- Model of `EsValueFacade::resolve_future`: remove the transmitter for
`man_obj_id` from the thread-local map; if one was registered, send the
result through its channel, otherwise panic ("no transmitter found"),
modelled as `none`.  (The `expect("could not send res")` on the send can
fire only when the receiving half was dropped; receivers are facade-owned
and alive in every modelled state.) -/
def resolve_future (b : Bridge) (man_obj_id : Int) (res : RRes) : Option Bridge :=
  match b.transmitters man_obj_id with
  | some c =>
      some { transmitters := fun k => if k = man_obj_id then none else b.transmitters k,
             nextChan := b.nextChan,
             chan := fun k => if k = c then ChanState.sent res else b.chan k }
  | none => none

end EsValueFacade

/-- The reserved future-marker property name `__esses_future_obj_id`. -/
def futureMarker : String := "__esses_future_obj_id"

mutual

/-- Model of `EsValueFacade::new_v`: inspect the native value's kind in
the source's order (boolean, int32, double, string, object); on an object
whose own property names contain the reserved marker, read the future id,
allocate a fresh one-shot channel, register its sending half in the
thread-local map and keep the receiving half; otherwise convert every own
property recursively.  Either way the object branch ends with
`val_object = Some(map)` (the map still empty in the marker case). -/
def new_v (b : Bridge) : JSVal → Bridge × EsValueFacade
  | JSVal.boolean x =>
      (b, EsValueFacade.mk none none none (some x) none none)
  | JSVal.int32 n =>
      (b, EsValueFacade.mk none (some n) none none none none)
  | JSVal.double x =>
      (b, EsValueFacade.mk none none (some x) none none none)
  | JSVal.string s =>
      (b, EsValueFacade.mk (some s) none none none none none)
  | JSVal.object props =>
      let prop_names := props.names
      if prop_names.contains futureMarker then
        let obj_id_val := props.lookup futureMarker
        let obj_id := obj_id_val.to_int32
        let c := b.nextChan
        let b1 : Bridge :=
          { transmitters := fun k => if k = obj_id then some c else b.transmitters k,
            nextChan := b.nextChan + 1,
            chan := b.chan }
        (b1, EsValueFacade.mk none none none none
               (some { obj_id := obj_id_val.to_int32, opt_receiver := some c })
               (some EsObjEntries.nil))
      else
        let p := new_v_props b props
        (p.1, EsValueFacade.mk none none none none none (some p.2))
  | JSVal.undefinedV =>
      (b, EsValueFacade.mk none none none none none none)
  | JSVal.other =>
      (b, EsValueFacade.mk none none none none none none)

/-- Recursive conversion of the own properties of a non-marker object
(the source iterates the own property names and reads each property;
names are unique, so this is the same as walking the properties). -/
def new_v_props (b : Bridge) : JSProps → Bridge × EsObjEntries
  | JSProps.nil => (b, EsObjEntries.nil)
  | JSProps.cons name v rest =>
      let p1 := new_v b v
      let p2 := new_v_props p1.1 rest
      (p2.1, EsObjEntries.cons name p1.2 p2.2)

end

/-- Result type of `get_promise_result_blocking`:
`Result<Result<EsValueFacade, EsValueFacade>, RecvTimeoutError>`. -/
inductive RecvRes where
  | received (r : RRes)
  | timeout

/-- Model of `Receiver::recv_timeout` on channel `c`: if a result is
already in the channel when the call happens it is received (draining the
channel), otherwise the call blocks for the timeout and reports the
timeout error.  Real time is not modelled; a settlement arriving during
the wait is represented by calling this in the later state. -/
def recv_timeout (b : Bridge) (c : Nat) : Bridge × RecvRes :=
  match b.chan c with
  | ChanState.sent r =>
      ({ b with chan := fun k => if k = c then ChanState.drained else b.chan k },
       RecvRes.received r)
  | _ => (b, RecvRes.timeout)

namespace EsValueFacade

/-- Model of `EsValueFacade::get_promise_result_blocking`: a non-promise
facade short-circuits to `Ok(Err("esvf was not a Promise"))`; otherwise
the two `expect`s (modelled as `none`) and a blocking receive on the
facade's channel. -/
def get_promise_result_blocking (b : Bridge) (f : EsValueFacade) :
    Option (Bridge × RecvRes) :=
  if f.is_promise = false then
    some (b, RecvRes.received (RRes.err (new_str "esvf was not a Promise")))
  else
    match f.val_managed_var with
    | none => none
    | some rmev =>
        match rmev.opt_receiver with
        | none => none
        | some c => some (recv_timeout b c)

end EsValueFacade

mutual

/-- Model of `EsValueFacade::as_js_expression_str`: the source's if/else
chain over the variant predicates (boolean, i32, f64, string, managed
future, object, fallback "null"), matching each payload in that order. -/
def EsValueFacade.as_js_expression_str : EsValueFacade → String
  | EsValueFacade.mk vs vi vd vb vm vo =>
      match vb with
      | some x => if x then "true" else "false"
      | none =>
          match vi with
          | some n => toString n
          | none =>
              match vd with
              | some x => fmtF64 x
              | none =>
                  match vs with
                  | some s => "\"" ++ s ++ "\""
                  | none =>
                      match vm with
                      | some rmev => "/* Future " ++ toString rmev.obj_id ++ " */"
                      | none =>
                          match vo with
                          | some entries => renderObjEntries entries "\x7b" ++ "\x7d"
                          | none => "null"

/-- The object-rendering loop of `as_js_expression_str`: starting from the
opening brace, append `", "` before every entry except the first (the
source tests `res.len() > 1`), then `"key": renderedChild`. -/
def renderObjEntries : EsObjEntries → String → String
  | EsObjEntries.nil, res => res
  | EsObjEntries.cons k v rest, res =>
      let res1 := if res.length > 1 then res ++ ", " else res
      let res2 := res1 ++ "\"" ++ k ++ "\": " ++ v.as_js_expression_str
      renderObjEntries rest res2

end

/-- Rendering of one object entry inside `as_js_expression_str`'s object
branch: `"key": renderedChild`. -/
def renderEntry (e : String × EsValueFacade) : String :=
  "\"" ++ e.1 ++ "\": " ++ e.2.as_js_expression_str

mutual

/-- Model of `EsValueFacade::to_es_value`: the source's if/else chain
(i32, f64, boolean, string, object, fallback undefined); the object branch
allocates a fresh native object and sets every converted child property
under its original key. -/
def EsValueFacade.to_es_value : EsValueFacade → JSVal
  | EsValueFacade.mk vs vi vd vb _ vo =>
      match vi with
      | some n => JSVal.int32 n
      | none =>
          match vd with
          | some x => JSVal.double x
          | none =>
              match vb with
              | some x => JSVal.boolean x
              | none =>
                  match vs with
                  | some s => JSVal.string s
                  | none =>
                      match vo with
                      | some entries => JSVal.object (to_es_props entries)
                      | none => JSVal.undefinedV

/-- Property-wise outbound conversion of an object facade's map. -/
def to_es_props : EsObjEntries → JSProps
  | EsObjEntries.nil => JSProps.nil
  | EsObjEntries.cons k v rest => JSProps.cons k v.to_es_value (to_es_props rest)

end

/-- Concrete native object carrying the reserved future marker with id 7,
used as a concrete input in several witnesses. -/
def markerObjVal : JSVal :=
  JSVal.object (JSProps.cons futureMarker (JSVal.int32 7) JSProps.nil)

/-! ## Lemmas about AutoIdMap runs -/

theorem AutoIdMap.new_inv {T : Type} : (AutoIdMap.new : AutoIdMap T).inv := by
  intro k hk
  simp [AutoIdMap.new] at hk

theorem AutoIdMap.step_spec {T : Type} (m : AutoIdMap T) (op : Op T)
    (m1 : AutoIdMap T) (ev : Ev) (hinv : m.inv)
    (h : m.step op = Except.ok (m1, ev)) :
    m1.inv ∧ m.last_id ≤ m1.last_id ∧
    (∀ a, ev = Ev.inserted a → a = m.last_id + 1 ∧ m1.last_id = a) ∧
    (∀ r, ev = Ev.removed r → 0 < r ∧ r ≤ m.last_id ∧ m1.last_id = m.last_id) := by
  cases op with
  | insert e =>
      simp only [step, insert, Except.ok.injEq, Prod.mk.injEq] at h
      obtain ⟨rfl, rfl⟩ := h
      refine ⟨?_, Nat.le_succ _, ?_, ?_⟩
      · intro k hk
        simp only at hk ⊢
        by_cases hke : k = m.last_id + 1
        · subst hke; omega
        · simp only [hke, if_false] at hk
          have := hinv k hk
          omega
      · intro a ha
        cases ha
        exact ⟨rfl, rfl⟩
      · intro r hr
        cases hr
  | remove id =>
      simp only [step] at h
      split at h
      · rename_i p hrm
        simp only [Except.ok.injEq, Prod.mk.injEq] at h
        obtain ⟨rfl, rfl⟩ := h
        simp only [remove] at hrm
        split at hrm
        · rename_i v hmap
          simp only [Except.ok.injEq] at hrm
          subst hrm
          have hbounds := hinv id (by simp [hmap])
          refine ⟨?_, Nat.le_refl _, ?_, ?_⟩
          · intro k hk
            simp only at hk ⊢
            by_cases hke : k = id
            · simp [hke] at hk
            · simp only [hke, if_false] at hk
              exact hinv k hk
          · intro a ha; cases ha
          · intro r hr
            cases hr
            exact ⟨hbounds.1, hbounds.2, rfl⟩
        · cases hrm
      · cases h
  | replace id e =>
      simp only [step] at h
      split at h
      · rename_i mr hrp
        simp only [Except.ok.injEq, Prod.mk.injEq] at h
        obtain ⟨rfl, rfl⟩ := h
        simp only [replace] at hrp
        split at hrp
        · cases hrp
        · rename_i hck
          have hid : 0 < id ∧ id ≤ m.last_id := by
            apply hinv
            simp only [contains_key, Bool.not_eq_false] at hck
            simpa using hck
          simp only [Except.ok.injEq] at hrp
          subst hrp
          refine ⟨?_, Nat.le_refl _, ?_, ?_⟩
          · intro k hk
            simp only at hk ⊢
            by_cases hke : k = id
            · subst hke; exact hid
            · simp only [hke, if_false] at hk
              exact hinv k hk
          · intro a ha; cases ha
          · intro r hr; cases hr
      · cases h
  | get id =>
      simp only [step, Except.ok.injEq, Prod.mk.injEq] at h
      obtain ⟨rfl, rfl⟩ := h
      refine ⟨hinv, Nat.le_refl _, ?_, ?_⟩
      · intro a ha; cases ha
      · intro r hr; cases hr

theorem AutoIdMap.run_spec {T : Type} (ops : List (Op T)) (m m2 : AutoIdMap T)
    (evs : List Ev) (hinv : m.inv) (h : m.run ops = Except.ok (m2, evs)) :
    m2.inv ∧ m.last_id ≤ m2.last_id ∧
    (∀ a, Ev.inserted a ∈ evs → m.last_id < a ∧ a ≤ m2.last_id) ∧
    List.Pairwise evRel evs := by
  induction ops generalizing m evs with
  | nil =>
      simp only [run, Except.ok.injEq, Prod.mk.injEq] at h
      obtain ⟨rfl, rfl⟩ := h
      exact ⟨hinv, Nat.le_refl _, by simp, List.Pairwise.nil⟩
  | cons op ops ih =>
      simp only [run] at h
      split at h
      · cases h
      · rename_i m1 ev hstep
        split at h
        · cases h
        · rename_i m2' evs' hrun
          simp only [Except.ok.injEq, Prod.mk.injEq] at h
          obtain ⟨rfl, rfl⟩ := h
          obtain ⟨hinv1, hmono1, hins, hrem⟩ := step_spec m op m1 ev hinv hstep
          obtain ⟨hinv2, hmono2, hbnd, hpw⟩ := ih m1 evs' hinv1 hrun
          refine ⟨hinv2, Nat.le_trans hmono1 hmono2, ?_, ?_⟩
          · intro a ha
            rcases List.mem_cons.mp ha with hhd | htl
            · obtain ⟨ha1, ha2⟩ := hins a hhd.symm
              omega
            · obtain ⟨hb1, hb2⟩ := hbnd a htl
              omega
          · refine List.Pairwise.cons ?_ hpw
            intro ev' hmem
            cases ev' with
            | inserted b =>
                have hb := (hbnd b hmem).1
                cases ev with
                | inserted a =>
                    obtain ⟨ha1, ha2⟩ := hins a rfl
                    show a < b
                    omega
                | removed r =>
                    obtain ⟨hr0, hr1, hr2⟩ := hrem r rfl
                    show r < b
                    omega
                | replaced r => trivial
                | got i fnd => trivial
            | removed r => cases ev <;> trivial
            | replaced r => cases ev <;> trivial
            | got i fnd => cases ev <;> trivial

/-- C3: on one AutoIdMap instance, across any interleaving of insert,
remove, replace and get calls, every insert returns an id strictly greater
than every previously returned id, never zero, and never an id that a
successful remove already took out. -/
theorem autoIdMap_ids_monotone_nonzero_fresh {T : Type}
    (ops : List (AutoIdMap.Op T)) (evs : List AutoIdMap.Ev)
    (h : AutoIdMap.runEvents ops = Except.ok evs) :
    List.Pairwise evRel evs ∧ ∀ a, AutoIdMap.Ev.inserted a ∈ evs → 0 < a := by
  simp only [AutoIdMap.runEvents] at h
  cases hrun : AutoIdMap.run (AutoIdMap.new : AutoIdMap T) ops with
  | error msg => rw [hrun] at h; cases h
  | ok p =>
      obtain ⟨m2, evs'⟩ := p
      rw [hrun] at h
      simp only [Except.map, Except.ok.injEq] at h
      subst h
      obtain ⟨-, -, hbnd, hpw⟩ :=
        AutoIdMap.run_spec ops AutoIdMap.new m2 evs' AutoIdMap.new_inv hrun
      exact ⟨hpw, fun a ha => (hbnd a ha).1⟩

theorem autoIdMap_ids_monotone_witness :
    List.Pairwise evRel [AutoIdMap.Ev.inserted 1, AutoIdMap.Ev.inserted 2,
      AutoIdMap.Ev.removed 1, AutoIdMap.Ev.got 2 true, AutoIdMap.Ev.inserted 3] ∧
    ∀ a, AutoIdMap.Ev.inserted a ∈
      ([AutoIdMap.Ev.inserted 1, AutoIdMap.Ev.inserted 2, AutoIdMap.Ev.removed 1,
        AutoIdMap.Ev.got 2 true, AutoIdMap.Ev.inserted 3] : List AutoIdMap.Ev) → 0 < a :=
  autoIdMap_ids_monotone_nonzero_fresh
    [AutoIdMap.Op.insert 5, AutoIdMap.Op.insert 6, AutoIdMap.Op.remove 1,
     AutoIdMap.Op.get 2, AutoIdMap.Op.insert 7]
    [AutoIdMap.Ev.inserted 1, AutoIdMap.Ev.inserted 2, AutoIdMap.Ev.removed 1,
     AutoIdMap.Ev.got 2 true, AutoIdMap.Ev.inserted 3] rfl

/-- C4 counterexample: `get` on an id that was never issued returns the
recoverable value `none` (Rust `Option::None`), it does not abort. -/
theorem autoIdMap_get_missing_returns_none :
    AutoIdMap.get (AutoIdMap.new : AutoIdMap Nat) 1 = none := rfl

/-- C4 (amended): on an id not present in the map, `remove` and `replace`
panic with their programming-error messages, while `get` returns the
recoverable `none`. -/
theorem autoIdMap_missing_id_behavior {T : Type} (m : AutoIdMap T) (id : Nat)
    (h : m.contains_key id = false) :
    m.remove id = Except.error "no such elem" ∧
    (∀ e, m.replace id e = Except.error ("no entry to replace for " ++ toString id)) ∧
    m.get id = none := by
  have hmap : m.map id = none := by
    simpa [AutoIdMap.contains_key] using h
  refine ⟨?_, ?_, ?_⟩
  · simp [AutoIdMap.remove, hmap]
  · intro e
    simp [AutoIdMap.replace, AutoIdMap.contains_key, hmap]
  · simpa [AutoIdMap.get] using hmap

theorem autoIdMap_missing_id_behavior_witness :
    AutoIdMap.remove (AutoIdMap.new : AutoIdMap Nat) 1 = Except.error "no such elem" ∧
    AutoIdMap.replace (AutoIdMap.new : AutoIdMap Nat) 1 42 =
      Except.error ("no entry to replace for " ++ toString 1) ∧
    AutoIdMap.get (AutoIdMap.new : AutoIdMap Nat) 1 = none :=
  ⟨(autoIdMap_missing_id_behavior AutoIdMap.new 1 rfl).1,
   (autoIdMap_missing_id_behavior AutoIdMap.new 1 rfl).2.1 42,
   (autoIdMap_missing_id_behavior AutoIdMap.new 1 rfl).2.2⟩

/-- C2: `resolve_future` removes the registry entry and delivers the
result through the removed transmitter's channel, so the entry is
consumed exactly once (a second call for the same id panics); and a call
for an id with no registered entry panics (modelled `none`) instead of
returning a recoverable error. -/
theorem resolve_future_consumes_entry (b : Bridge) (id : Int) (r : RRes) :
    (∀ c, b.transmitters id = some c →
      ∃ b1, EsValueFacade.resolve_future b id r = some b1 ∧
        b1.transmitters id = none ∧ b1.chan c = ChanState.sent r ∧
        ∀ r2, EsValueFacade.resolve_future b1 id r2 = none) ∧
    (b.transmitters id = none → EsValueFacade.resolve_future b id r = none) := by
  constructor
  · intro c hc
    refine ⟨{ transmitters := fun k => if k = id then none else b.transmitters k,
              nextChan := b.nextChan,
              chan := fun k => if k = c then ChanState.sent r else b.chan k },
            ?_, ?_, ?_, ?_⟩
    · simp [EsValueFacade.resolve_future, hc]
    · simp
    · simp
    · intro r2
      simp [EsValueFacade.resolve_future]
  · intro h
    simp [EsValueFacade.resolve_future, h]

theorem resolve_future_consumes_entry_witness :
    ∃ b1, EsValueFacade.resolve_future (new_v bridge0 markerObjVal).1 7
        (RRes.ok EsValueFacade.undefined) = some b1 ∧
      b1.transmitters 7 = none ∧
      b1.chan 0 = ChanState.sent (RRes.ok EsValueFacade.undefined) ∧
      ∀ r2, EsValueFacade.resolve_future b1 7 r2 = none :=
  (resolve_future_consumes_entry (new_v bridge0 markerObjVal).1 7
    (RRes.ok EsValueFacade.undefined)).1 0 rfl

/-! ## Shape lemmas for new_v -/

theorem new_v_object_marker (b : Bridge) (props : JSProps)
    (hm : futureMarker ∈ props.names) :
    new_v b (JSVal.object props) =
      ({ transmitters := fun k =>
           if k = (props.lookup futureMarker).to_int32 then some b.nextChan
           else b.transmitters k,
         nextChan := b.nextChan + 1, chan := b.chan },
       EsValueFacade.mk none none none none
         (some { obj_id := (props.lookup futureMarker).to_int32,
                 opt_receiver := some b.nextChan })
         (some EsObjEntries.nil)) := by
  simp [new_v, hm]

theorem new_v_object_plain (b : Bridge) (props : JSProps)
    (hm : ¬ futureMarker ∈ props.names) :
    new_v b (JSVal.object props) =
      ((new_v_props b props).1,
       EsValueFacade.mk none none none none none (some (new_v_props b props).2)) := by
  simp [new_v, hm]

theorem new_v_shape (b : Bridge) (v : JSVal) :
    ((new_v b v).2.is_managed_object = false ∧
      EsValueFacade.activeCount (new_v b v).2 ≤ 1) ∨
    ((new_v b v).2.is_managed_object = true ∧ (new_v b v).2.is_object = true ∧
      EsValueFacade.activeCount (new_v b v).2 = 2) := by
  cases v with
  | boolean x => exact Or.inl ⟨rfl, Nat.le_refl 1⟩
  | int32 n => exact Or.inl ⟨rfl, Nat.le_refl 1⟩
  | double x => exact Or.inl ⟨rfl, Nat.le_refl 1⟩
  | string s => exact Or.inl ⟨rfl, Nat.le_refl 1⟩
  | undefinedV => exact Or.inl ⟨rfl, Nat.zero_le 1⟩
  | other => exact Or.inl ⟨rfl, Nat.zero_le 1⟩
  | object props =>
      by_cases hm : futureMarker ∈ props.names
      · rw [new_v_object_marker b props hm]
        exact Or.inr ⟨rfl, rfl, rfl⟩
      · rw [new_v_object_plain b props hm]
        exact Or.inl ⟨rfl, Nat.le_refl 1⟩

/-- C5: calling the blocking promise wait on a facade that is not a
managed future returns immediately, leaving the bridge state untouched and
without reading any channel, with the non-timeout result whose inner value
is the rejected branch carrying the descriptive message string; it does
not panic (the result is `some`). -/
theorem wait_on_non_promise_immediate (b : Bridge) (f : EsValueFacade)
    (h : f.is_promise = false) :
    EsValueFacade.get_promise_result_blocking b f =
      some (b, RecvRes.received (RRes.err (EsValueFacade.new_str "esvf was not a Promise"))) ∧
    (EsValueFacade.new_str "esvf was not a Promise").is_string = true := by
  constructor
  · simp [EsValueFacade.get_promise_result_blocking, h]
  · rfl

theorem wait_on_non_promise_immediate_witness :
    EsValueFacade.get_promise_result_blocking bridge0 (EsValueFacade.new_i32 1) =
      some (bridge0, RecvRes.received (RRes.err (EsValueFacade.new_str "esvf was not a Promise"))) ∧
    (EsValueFacade.new_str "esvf was not a Promise").is_string = true :=
  wait_on_non_promise_immediate bridge0 (EsValueFacade.new_i32 1) rfl

/-- C6: `new_v` dispatches on the native value's kind in the fixed order
boolean, int32, double, string, object, first match only; each primitive
kind produces exactly the corresponding constructor's facade, an object
always produces a facade with `val_object` set, and a value of any
unmatched kind (undefined, null, symbols, ...) produces the Undefined
facade on which every variant predicate is false. -/
theorem newv_kind_dispatch (b : Bridge) :
    (∀ x, (new_v b (JSVal.boolean x)).2 = EsValueFacade.new_bool x) ∧
    (∀ n, (new_v b (JSVal.int32 n)).2 = EsValueFacade.new_i32 n) ∧
    (∀ x, (new_v b (JSVal.double x)).2 = EsValueFacade.new_f64 x) ∧
    (∀ s, (new_v b (JSVal.string s)).2 = EsValueFacade.new_str s) ∧
    (∀ props, (new_v b (JSVal.object props)).2.is_object = true) ∧
    ((new_v b JSVal.undefinedV).2 = EsValueFacade.undefined) ∧
    ((new_v b JSVal.other).2 = EsValueFacade.undefined) ∧
    (EsValueFacade.undefined.is_string = false ∧ EsValueFacade.undefined.is_i32 = false ∧
     EsValueFacade.undefined.is_f64 = false ∧ EsValueFacade.undefined.is_boolean = false ∧
     EsValueFacade.undefined.is_object = false ∧ EsValueFacade.undefined.is_managed_object = false) := by
  refine ⟨fun x => rfl, fun n => rfl, fun x => rfl, fun s => rfl, ?_,
          rfl, rfl, rfl, rfl, rfl, rfl, rfl, rfl⟩
  intro props
  by_cases hm : futureMarker ∈ props.names
  · rw [new_v_object_marker b props hm]; rfl
  · rw [new_v_object_plain b props hm]; rfl

/-- C7: for each primitive facade constructor, converting to a native
value with `to_es_value` and back with `new_v` reproduces the facade
(same active variant, same payload). -/
theorem primitive_facade_roundtrip (b : Bridge) :
    (∀ s, (new_v b (EsValueFacade.new_str s).to_es_value).2 = EsValueFacade.new_str s) ∧
    (∀ n, (new_v b (EsValueFacade.new_i32 n).to_es_value).2 = EsValueFacade.new_i32 n) ∧
    (∀ x, (new_v b (EsValueFacade.new_f64 x).to_es_value).2 = EsValueFacade.new_f64 x) ∧
    (∀ x, (new_v b (EsValueFacade.new_bool x).to_es_value).2 = EsValueFacade.new_bool x) :=
  ⟨fun _ => rfl, fun _ => rfl, fun _ => rfl, fun _ => rfl⟩

/-- C1 counterexample: converting a native object that carries the
reserved future-id marker yields a facade on which both
`is_managed_object` and `is_object` answer true — two variant predicates
hold at once. -/
theorem newv_future_marker_two_predicates :
    (new_v bridge0 markerObjVal).2.is_managed_object = true ∧
    (new_v bridge0 markerObjVal).2.is_object = true :=
  ⟨rfl, rfl⟩

/-- C1 (amended): every facade from a host constructor has at most one
active variant field, and so does every facade converted from a native
value, except one converted from a future-marker object, which has exactly
two variant fields set simultaneously: the managed-future field and the
(empty) object field. -/
theorem facade_variant_exclusivity (b : Bridge) (v : JSVal) :
    (EsValueFacade.activeCount EsValueFacade.undefined = 0) ∧
    (∀ s, EsValueFacade.activeCount (EsValueFacade.new_str s) = 1) ∧
    (∀ n, EsValueFacade.activeCount (EsValueFacade.new_i32 n) = 1) ∧
    (∀ x, EsValueFacade.activeCount (EsValueFacade.new_f64 x) = 1) ∧
    (∀ x, EsValueFacade.activeCount (EsValueFacade.new_bool x) = 1) ∧
    (∀ entries, EsValueFacade.activeCount (EsValueFacade.new_obj entries) = 1) ∧
    ((new_v b v).2.is_managed_object = false →
      EsValueFacade.activeCount (new_v b v).2 ≤ 1) ∧
    ((new_v b v).2.is_managed_object = true →
      (new_v b v).2.is_object = true ∧ EsValueFacade.activeCount (new_v b v).2 = 2) := by
  refine ⟨rfl, fun s => rfl, fun n => rfl, fun x => rfl, fun x => rfl, fun entries => rfl,
          ?_, ?_⟩
  · intro h
    rcases new_v_shape b v with ⟨h1, h2⟩ | ⟨h1, h2, h3⟩
    · exact h2
    · rw [h] at h1; cases h1
  · intro h
    rcases new_v_shape b v with ⟨h1, h2⟩ | ⟨h1, h2, h3⟩
    · rw [h] at h1; cases h1
    · exact ⟨h2, h3⟩

theorem facade_variant_exclusivity_witness :
    EsValueFacade.activeCount (new_v bridge0 (JSVal.string "a")).2 ≤ 1 ∧
    ((new_v bridge0 markerObjVal).2.is_object = true ∧
     EsValueFacade.activeCount (new_v bridge0 markerObjVal).2 = 2) :=
  ⟨(facade_variant_exclusivity bridge0 (JSVal.string "a")).2.2.2.2.2.2.1 rfl,
   (facade_variant_exclusivity bridge0 markerObjVal).2.2.2.2.2.2.2 rfl⟩

/-- C10: a facade built from a native object carrying the reserved
future-marker property is a managed future that also answers
`is_object() = true`, whose `get_object` is the empty mapping, and whose
outbound conversion is a fresh empty native object, not the undefined
value. -/
theorem future_marker_facade_also_object (b : Bridge) (props : JSProps)
    (hm : futureMarker ∈ props.names) :
    (new_v b (JSVal.object props)).2.is_managed_object = true ∧
    (new_v b (JSVal.object props)).2.is_object = true ∧
    (new_v b (JSVal.object props)).2.get_object = some EsObjEntries.nil ∧
    (new_v b (JSVal.object props)).2.to_es_value = JSVal.object JSProps.nil ∧
    (new_v b (JSVal.object props)).2.to_es_value ≠ JSVal.undefinedV := by
  rw [new_v_object_marker b props hm]
  refine ⟨rfl, rfl, rfl, rfl, ?_⟩
  intro hcontra
  cases hcontra

theorem future_marker_facade_also_object_witness :
    (new_v bridge0 markerObjVal).2.is_managed_object = true ∧
    (new_v bridge0 markerObjVal).2.is_object = true ∧
    (new_v bridge0 markerObjVal).2.get_object = some EsObjEntries.nil ∧
    (new_v bridge0 markerObjVal).2.to_es_value = JSVal.object JSProps.nil ∧
    (new_v bridge0 markerObjVal).2.to_es_value ≠ JSVal.undefinedV :=
  future_marker_facade_also_object bridge0
    (JSProps.cons futureMarker (JSVal.int32 7) JSProps.nil) (by simp [JSProps.names])

/-- C8: when the blocking wait on a managed-future facade times out, the
bridge state — the registry entry for the future id and the facade's
channel — is returned entirely unchanged; a later `resolve_future` for the
id therefore still succeeds, and a retried wait on the very same facade
then receives the delivered result. -/
theorem wait_timeout_preserves_registration (b : Bridge) (f : EsValueFacade)
    (fid : Int) (c : Nat)
    (hm : f.val_managed_var = some { obj_id := fid, opt_receiver := some c })
    (hpend : b.chan c = ChanState.pending) :
    EsValueFacade.get_promise_result_blocking b f = some (b, RecvRes.timeout) ∧
    ∀ r, b.transmitters fid = some c →
      ∃ b1, EsValueFacade.resolve_future b fid r = some b1 ∧
        EsValueFacade.get_promise_result_blocking b1 f =
          some ({ b1 with chan := fun k => if k = c then ChanState.drained else b1.chan k },
                RecvRes.received r) := by
  have hprom : f.is_promise = true := by
    simp [EsValueFacade.is_promise, EsValueFacade.is_managed_object, hm]
  constructor
  · simp [EsValueFacade.get_promise_result_blocking, hprom, hm, recv_timeout, hpend]
  · intro r htx
    refine ⟨{ transmitters := fun k => if k = fid then none else b.transmitters k,
              nextChan := b.nextChan,
              chan := fun k => if k = c then ChanState.sent r else b.chan k }, ?_, ?_⟩
    · simp [EsValueFacade.resolve_future, htx]
    · simp [EsValueFacade.get_promise_result_blocking, hprom, hm, recv_timeout]

theorem wait_timeout_preserves_registration_witness :
    EsValueFacade.get_promise_result_blocking (new_v bridge0 markerObjVal).1
        (new_v bridge0 markerObjVal).2 =
      some ((new_v bridge0 markerObjVal).1, RecvRes.timeout) ∧
    ∀ r, (new_v bridge0 markerObjVal).1.transmitters 7 = some 0 →
      ∃ b1, EsValueFacade.resolve_future (new_v bridge0 markerObjVal).1 7 r = some b1 ∧
        EsValueFacade.get_promise_result_blocking b1 (new_v bridge0 markerObjVal).2 =
          some ({ b1 with chan := fun k => if k = 0 then ChanState.drained else b1.chan k },
                RecvRes.received r) :=
  wait_timeout_preserves_registration (new_v bridge0 markerObjVal).1
    (new_v bridge0 markerObjVal).2 7 0 rfl rfl

/-! ## String lemmas for the expression renderer -/

theorem string_foldl_append (xs : List String) (a : String) :
    xs.foldl (fun r s => r ++ s) a = a ++ String.join xs := by
  induction xs generalizing a with
  | nil => simp [String.join]
  | cons x xs ih =>
      rw [List.foldl_cons, ih (a ++ x)]
      have hx : String.join (x :: xs) = x ++ String.join xs := by
        show List.foldl _ _ (x :: xs) = _
        rw [List.foldl_cons, ih ("" ++ x), String.empty_append]
      rw [hx, String.append_assoc]

theorem string_join_cons (x : String) (xs : List String) :
    String.join (x :: xs) = x ++ String.join xs := by
  show List.foldl _ _ (x :: xs) = _
  rw [List.foldl_cons, string_foldl_append, String.empty_append]

theorem string_intercalate_go (s : String) (xs : List String) (acc : String) :
    String.intercalate.go acc s xs = acc ++ String.join (xs.map (fun y => s ++ y)) := by
  induction xs generalizing acc with
  | nil => simp [String.intercalate.go, String.join]
  | cons y ys ih =>
      rw [String.intercalate.go, ih]
      simp [string_join_cons, String.append_assoc]

theorem string_intercalate_cons (s x : String) (xs : List String) :
    String.intercalate s (x :: xs) = x ++ String.join (xs.map (fun y => s ++ y)) := by
  rw [String.intercalate, string_intercalate_go]

theorem renderObjEntries_acc : ∀ (entries : EsObjEntries) (acc : String),
    1 < acc.length →
    renderObjEntries entries acc =
      acc ++ String.join (entries.toList.map (fun e => ", " ++ renderEntry e))
  | EsObjEntries.nil, acc, _ => by
      simp [renderObjEntries, EsObjEntries.toList, String.join]
  | EsObjEntries.cons k v rest, acc, h => by
      rw [renderObjEntries]
      rw [if_pos h]
      rw [renderObjEntries_acc rest _ (by simp [String.length_append]; omega)]
      simp only [EsObjEntries.toList, List.map_cons, string_join_cons, renderEntry]
      simp only [String.append_assoc]

theorem renderObj_eq (entries : EsObjEntries) :
    (EsValueFacade.new_obj entries).as_js_expression_str =
      "\x7b" ++ String.intercalate ", " (entries.toList.map renderEntry) ++ "\x7d" := by
  show renderObjEntries entries "\x7b" ++ "\x7d" = _
  cases entries with
  | nil => rfl
  | cons k v rest =>
      rw [renderObjEntries, if_neg (by decide)]
      rw [renderObjEntries_acc rest _ (by
        have h1 : ("\x7b" : String).length = 1 := rfl
        have h2 : ("\"" : String).length = 1 := rfl
        simp only [String.length_append, h1, h2]
        omega)]
      rw [EsObjEntries.toList, List.map_cons, string_intercalate_cons]
      simp only [List.map_map, Function.comp_def, renderEntry]
      simp only [String.append_assoc]

/-- C9: `as_js_expression_str` renders a literal script expression for
every variant: the quoted payload for a string, `true`/`false` for a
boolean, the numeric literal for an i32 or f64, a brace-enclosed
comma-separated list of `"key": renderedChild` pairs (children rendered
recursively) for an object, and the non-evaluable placeholder comment
`/* Future id */` for a managed future. -/
theorem as_js_expression_renders (fid : Int) (rx : Option Nat) (vo : Option EsObjEntries) :
    (∀ s, (EsValueFacade.new_str s).as_js_expression_str = "\"" ++ s ++ "\"") ∧
    ((EsValueFacade.new_bool true).as_js_expression_str = "true") ∧
    ((EsValueFacade.new_bool false).as_js_expression_str = "false") ∧
    (∀ n, (EsValueFacade.new_i32 n).as_js_expression_str = toString n) ∧
    (∀ x, (EsValueFacade.new_f64 x).as_js_expression_str = fmtF64 x) ∧
    (∀ entries, (EsValueFacade.new_obj entries).as_js_expression_str =
      "\x7b" ++ String.intercalate ", " (entries.toList.map renderEntry) ++ "\x7d") ∧
    ((EsValueFacade.mk none none none none
        (some { obj_id := fid, opt_receiver := rx }) vo).as_js_expression_str =
      "/* Future " ++ toString fid ++ " */") :=
  ⟨fun _ => rfl, rfl, rfl, fun _ => rfl, fun _ => rfl, renderObj_eq, rfl⟩
